import Mathlib

/-!
Shallow embedding of the sponsored-payment workflow of the motusdao-hub
repository, centred on `sendPaymentWithKernel` (src/unnamed/part_001) and the
wallet-selection helpers of `src/lib/wallet-utils.ts`.

Modelling conventions:
* JavaScript strings are Lean `String`s; `.length` is modelled as the UTF-16
  code-unit count (`jsStringLength`), which agrees with codepoint count on
  ASCII data.
* JavaScript numbers reached by `parseFloat` are modelled exactly as rationals
  plus infinities (`JSNum`); IEEE-double rounding is not modelled.  The only
  use in the code is the sign test `isNaN(amount) || amount <= 0`, where exact
  rationals and doubles agree except for sub-double-precision magnitudes.
* Thrown JavaScript errors are modelled by their `message` string carried in
  `Except.error`; the code under study only ever inspects `error.message`
  (resp. `String(error)`).
* The injected ZeroDev kernel client is a record of two behaviours returning
  `Except String _`; `await` of a rejected promise is `Except.error`.
* Network effects are made observable through a trace of `NetCall` values
  accumulated alongside the result.
-/

namespace MotusHub

/-- Decidable equality of `Except` results, used to evaluate the embedding at
concrete inputs. -/
instance {ε α : Type} [DecidableEq ε] [DecidableEq α] :
    DecidableEq (Except ε α) := fun x y =>
  match x, y with
  | Except.ok a, Except.ok b =>
    if h : a = b then isTrue (by rw [h])
    else isFalse (fun hh => h (Except.ok.inj hh))
  | Except.error a, Except.error b =>
    if h : a = b then isTrue (by rw [h])
    else isFalse (fun hh => h (Except.error.inj hh))
  | Except.ok _, Except.error _ => isFalse (fun hh => Except.noConfusion hh)
  | Except.error _, Except.ok _ => isFalse (fun hh => Except.noConfusion hh)

/-! ### JavaScript string primitives -/

/-- JS `String.prototype.length`: number of UTF-16 code units
(codepoints above U+FFFF count twice). -/
def jsStringLength (s : String) : Nat :=
  s.data.foldl (fun n c => n + (if c.toNat ≥ 0x10000 then 2 else 1)) 0

/-- JS `String.prototype.startsWith`. -/
def jsStartsWith (s patt : String) : Bool :=
  patt.data.isPrefixOf s.data

/-- JS `String.prototype.includes`: substring containment. -/
def containsSubstr (s patt : String) : Bool :=
  (s.data.tails).any (fun t => patt.data.isPrefixOf t)

/-- JS `String.prototype.toLowerCase`, restricted to ASCII case mapping
(the substrings compared against in the code are all ASCII). -/
def toLowerStr (s : String) : String :=
  String.mk (s.data.map Char.toLower)

/-- Value of a list of decimal digit characters (most significant first);
the empty list gives 0, matching JS `BigInt("")`. -/
def digitsVal (ds : List Char) : Nat :=
  ds.foldl (fun a c => 10 * a + (c.toNat - 48)) 0

/-- Drop trailing `'0'` characters, as viem's `fraction.replace(/(0+)$/, '')`. -/
def dropTrailingZeros (ds : List Char) : List Char :=
  (ds.reverse.dropWhile (fun c => c = '0')).reverse

/-- Whether the decimal fraction `0.ds` is ≥ 1/2 — the exact condition under
which JS `Math.round` on `u.ds` rounds up (half away from zero). -/
def geHalf (ds : List Char) : Bool :=
  10 ^ ds.length ≤ 2 * digitsVal ds

/-! ### JS `parseFloat` -/

/-- A JS number as produced by `parseFloat` on a non-NaN input. -/
inductive JSNum where
  | num (q : ℚ)
  | posInf
  | negInf
deriving DecidableEq, Repr

/-- JS whitespace characters skipped by `parseFloat` (ASCII whitespace plus
NBSP, BOM and the Unicode line separators). -/
def isJsWhitespace (c : Char) : Bool :=
  c = ' ' ∨ c = '\t' ∨ c = '\n' ∨ c = '\r' ∨ c.toNat = 0x0B ∨ c.toNat = 0x0C ∨
  c.toNat = 0xA0 ∨ c.toNat = 0xFEFF ∨ c.toNat = 0x2028 ∨ c.toNat = 0x2029

/-- JS `parseFloat`: longest numeric prefix after leading whitespace and an
optional sign; `none` models `NaN`.  The grammar accepted is
`[+-]? (Infinity | digits [. digits?] | . digits) [(e|E) [+-]? digits]`,
with trailing garbage ignored and an exponent consumed only when at least one
exponent digit follows. -/
def jsParseFloat (s : String) : Option JSNum :=
  let cs := s.data.dropWhile isJsWhitespace
  let (neg, cs1) : Bool × List Char :=
    match cs with
    | '-' :: t => (true, t)
    | '+' :: t => (false, t)
    | t => (false, t)
  if "Infinity".data.isPrefixOf cs1 then
    some (if neg then JSNum.negInf else JSNum.posInf)
  else
    let ip := cs1.takeWhile Char.isDigit
    let r1 := cs1.dropWhile Char.isDigit
    let (fp, r2) : List Char × List Char :=
      match r1 with
      | '.' :: t => (t.takeWhile Char.isDigit, t.dropWhile Char.isDigit)
      | _ => ([], r1)
    if ip = [] ∧ fp = [] then none
    else
      let e : ℤ :=
        match r2 with
        | c :: t =>
          if c = 'e' ∨ c = 'E' then
            let (eneg, t1) : Bool × List Char :=
              match t with
              | '-' :: u => (true, u)
              | '+' :: u => (false, u)
              | u => (false, u)
            let ed := t1.takeWhile Char.isDigit
            if ed = [] then 0
            else if eneg then -(digitsVal ed : ℤ) else (digitsVal ed : ℤ)
          else 0
        | [] => 0
      -- the exact value (ip.fp) · 10^e as a rational,
      -- written with `mkRat` over integer arithmetic
      let mantNum : ℤ := (digitsVal ip : ℤ) * 10 ^ fp.length + (digitsVal fp : ℤ)
      let v : ℚ :=
        if 0 ≤ e then mkRat (mantNum * 10 ^ e.toNat) (10 ^ fp.length)
        else mkRat mantNum (10 ^ fp.length * 10 ^ (-e).toNat)
      some (JSNum.num (if neg then -v else v))

/-- The test `amount <= 0` on a non-NaN JS number. -/
def jsNumLe0 : JSNum → Bool
  | JSNum.num q => decide (q ≤ 0)
  | JSNum.posInf => false
  | JSNum.negInf => true

/-! ### viem `parseUnits` / `parseEther` -/

/-- viem's shape check on a decimal string: the regex
`^(-?)([0-9]*)\.?([0-9]*)$`, i.e. an optional minus sign, digits, at most one
dot, digits. -/
def decimalShape (s : String) : Bool :=
  let cs := match s.data with
    | '-' :: t => t
    | t => t
  let r := cs.dropWhile Char.isDigit
  match r with
  | [] => true
  | '.' :: t => t.all Char.isDigit
  | _ => false

/-- Value computed by viem `parseUnits` once the decimal regex has passed.
The source manipulates digit strings (`fraction.replace`, `padEnd`, `slice`,
`padStart`) and finally evaluates `BigInt(sign ++ integer ++ fraction)`; this
embedding performs the same digit-string operations, expressing the final
concatenation arithmetically (`intVal * 10^decimals + fracVal`, `fraction`
always being exactly `decimals` digits long at that point).
`Math.round(Number(unit.right))` is modelled as exact half-up rounding
(`geHalf`). -/
def parseUnitsVal (value : String) (decimals : Nat) : Int :=
    let cs := value.data
    let neg : Bool := cs.head? = some '-'
    let cs := if neg then cs.drop 1 else cs
    let ip := cs.takeWhile Char.isDigit
    -- `value.split('.')`: the fraction part defaults to "0" when absent
    let frac0 : List Char :=
      match cs.dropWhile Char.isDigit with
      | '.' :: t => t
      | _ => ['0']
    let frac := dropTrailingZeros frac0
    let ipVal := digitsVal ip
    let sgn : Nat → Int := fun n => if neg then -(n : Int) else (n : Int)
    if decimals = 0 then
      sgn (ipVal + (if geHalf frac then 1 else 0))
    else if frac.length > decimals then
      let left := frac.take (decimals - 1)
      let unit := digitsVal (frac.drop (decimals - 1) |>.take 1)
      let right := frac.drop decimals
      let rounded := unit + (if geHalf right then 1 else 0)
      if rounded > 9 then
        -- fraction := `${BigInt(left) + 1n}0`.padStart(left.length + 1, '0'),
        -- carrying into the integer part when it overflows `decimals` digits
        let fracNum := (digitsVal left + 1) * 10
        if fracNum ≥ 10 ^ decimals then
          sgn ((ipVal + 1) * 10 ^ decimals + (fracNum - 10 ^ decimals))
        else
          sgn (ipVal * 10 ^ decimals + fracNum)
      else
        sgn (ipVal * 10 ^ decimals + (digitsVal left * 10 + rounded))
    else
      -- fraction := fraction.padEnd(decimals, '0')
      sgn (ipVal * 10 ^ decimals + digitsVal frac * 10 ^ (decimals - frac.length))

/-- viem `parseUnits (value, decimals)`: throws (`Except.error`) when the
decimal regex fails, otherwise yields `parseUnitsVal`.  `parseEther value` is
`parseUnits value 18`. -/
def parseUnits (value : String) (decimals : Nat) : Except String Int :=
  if ¬ decimalShape value then
    Except.error ("Number \x22" ++ value ++ "\x22 is not a valid decimal number.")
  else
    Except.ok (parseUnitsVal value decimals)

/-! ### viem `encodeFunctionData` for `transfer(address,uint256)` -/

/-- Hexadecimal digit test (both cases), viem's address regex body. -/
def isHexDigit (c : Char) : Bool :=
  c.isDigit ∨ ('a' ≤ c ∧ c ≤ 'f') ∨ ('A' ≤ c ∧ c ≤ 'F')

/-- viem address well-formedness: `/^0x[a-fA-F0-9]{40}$/`.  (The additional
EIP-55 checksum validation viem applies to mixed-case addresses requires
keccak-256 and is not modelled; every concrete address used below is
all-lowercase, where the two checks coincide.) -/
def isAddressStr (s : String) : Bool :=
  jsStartsWith s "0x" ∧ s.data.length = 42 ∧ (s.data.drop 2).all isHexDigit

/-- Lowercase hexadecimal digits of `n`, most significant first. -/
def natToHexChars (n : Nat) : List Char :=
  Nat.toDigits 16 n

/-- Left-pad a digit string with `'0'` to 64 characters (32 bytes). -/
def pad64 (ds : List Char) : List Char :=
  List.replicate (64 - ds.length) '0' ++ ds

/-- viem `encodeFunctionData` applied to the two-argument `transfer` ABI used
in the source: 4-byte selector `a9059cbb` followed by the address (lowercased,
left-padded to 32 bytes) and the uint256 amount.  Throws on a malformed
address and on an amount outside the uint256 range, as viem's
`encodeAbiParameters` does. -/
def encodeTransfer (toAddr : String) (amount : Int) : Except String String :=
  if ¬ isAddressStr toAddr then
    Except.error ("Address \x22" ++ toAddr ++ "\x22 is invalid.")
  else if amount < 0 ∨ (2 : Int) ^ 256 ≤ amount then
    Except.error "Number is not in safe 256-bit unsigned integer range"
  else
    Except.ok (String.mk ("0xa9059cbb".data ++
      pad64 ((toAddr.data.drop 2).map Char.toLower) ++
      pad64 (natToHexChars amount.toNat)))

/-! ### Data model (src/unnamed/part_001, src/lib/wallet-utils.ts) -/

/-- The closed `currency` union of `PaymentParams`. -/
inductive Currency where
  | CELO | USDT | USDC | cUSD | cEUR | cREAL | cCOP | PSY | MOT | cCAD
deriving DecidableEq, Repr

/-- The string interpolated for `params.currency` in the
`Dirección del contrato para ${params.currency} no configurada` message. -/
def currencyName : Currency → String
  | Currency.CELO => "CELO"
  | Currency.USDT => "USDT"
  | Currency.USDC => "USDC"
  | Currency.cUSD => "cUSD"
  | Currency.cEUR => "cEUR"
  | Currency.cREAL => "cREAL"
  | Currency.cCOP => "cCOP"
  | Currency.PSY => "PSY"
  | Currency.MOT => "MOT"
  | Currency.cCAD => "cCAD"

/-- `PaymentParams` (the TS field `from` is a Lean keyword and is spelt
`fromAddr`; `to` likewise is spelt `toAddr`). -/
structure PaymentParams where
  fromAddr : String
  toAddr : String
  amount : String
  currency : Currency
deriving DecidableEq, Repr

/-- `PaymentResult`: the uniform outcome value; absent optional TS fields are
`none`. -/
structure PaymentResult where
  success : Bool
  transactionHash : Option String := none
  error : Option String := none
  explorerUrl : Option String := none
deriving DecidableEq, Repr

/-- One entry of the `calls` array handed to `sendUserOperation`
(TS field `to` spelt `toAddr`). -/
structure CallObj where
  toAddr : String
  value : Int
  data : String
deriving DecidableEq, Repr

/-- Observable network interactions of one `sendPaymentWithKernel` run. -/
inductive NetCall where
  | sendUserOp (calls : List CallObj)
  | waitReceipt (hash : String)
deriving DecidableEq, Repr

/-- The `receipt` field of a user-operation receipt. -/
structure InnerReceipt where
  transactionHash : Option String
deriving DecidableEq, Repr

/-- The value resolved by `waitForUserOperationReceipt`; both levels of the
optional chain `receipt?.receipt?` may be absent. -/
structure UserOpReceipt where
  receipt : Option InnerReceipt
deriving DecidableEq, Repr

/-- The injected ZeroDev kernel client, reduced to the two behaviours
`sendPaymentWithKernel` uses.  A rejected promise is `Except.error` carrying
the error's message. -/
structure KernelAccountClient where
  sendUserOperation : List CallObj → Except String String
  waitForUserOperationReceipt : String → Except String (Option UserOpReceipt)

/-- `receipt?.receipt?.transactionHash`. -/
def jsReceiptHash (r : Option UserOpReceipt) : Option String :=
  (r.bind (fun x => x.receipt)).bind (fun x => x.transactionHash)

/-- Modelled from the spec: `getCeloExplorerUrl` lives in `lib/celo.ts`, which
is not among the provided sources.  Per §4.5/§6 the explorer URL is derived
deterministically from the hash and the network identifier by string
concatenation; the base URL appears in the provided WaaP provider source. -/
def getCeloExplorerUrl (hash : String) (kind : String) : String :=
  "https://explorer.celo.org/" ++ kind ++ "/" ++ hash

/-! ### `isEncodingError` and `sendPaymentWithKernel` -/

/-- `isEncodingError` (src/unnamed/part_001 lines 181–187) on an error's
message string.  (The TS guard `if (!error) return false` only affects the
empty string, which contains none of the three substrings anyway.) -/
def isEncodingError (errorStr : String) : Bool :=
  containsSubstr errorStr "invalid codepoint" ||
  containsSubstr errorStr "missing continuation byte" ||
  containsSubstr errorStr "strings/5.7.0"

/-- The address validation guard
`!params.to || !params.to.startsWith('0x') || params.to.length !== 42`. -/
def toInvalid (params : PaymentParams) : Bool :=
  params.toAddr = "" ∨ ¬ jsStartsWith params.toAddr "0x" ∨
  jsStringLength params.toAddr ≠ 42

/-- The amount validation guard
`isNaN(parseFloat(params.amount)) || parseFloat(params.amount) <= 0`. -/
def amountInvalid (params : PaymentParams) : Bool :=
  match jsParseFloat params.amount with
  | none => true
  | some a => jsNumLe0 a

/-- Error message of the receipt-without-hash `throw`. -/
def noHashMsg : String := "No se encontró el hash de transacción en el recibo"

/-- The shared submit-and-await-receipt tail of both currency paths
(lines 257–300 and 372–411 are textually identical up to the call object):
send the single-call user operation, await the receipt, downgrade a benign
encoding failure of the wait to an optimistic success, and `throw` when the
receipt carries no (truthy) transaction hash. -/
def submitAndWait (kernelClient : KernelAccountClient) (call : CallObj) :
    Except String PaymentResult × List NetCall :=
  match kernelClient.sendUserOperation [call] with
  | Except.error e => (Except.error e, [NetCall.sendUserOp [call]])
  | Except.ok userOpHash =>
    match kernelClient.waitForUserOperationReceipt userOpHash with
    | Except.error receiptError =>
      if isEncodingError receiptError then
        (Except.ok { success := true, transactionHash := some userOpHash,
                     explorerUrl := some (getCeloExplorerUrl userOpHash "tx") },
         [NetCall.sendUserOp [call], NetCall.waitReceipt userOpHash])
      else
        (Except.error receiptError,
         [NetCall.sendUserOp [call], NetCall.waitReceipt userOpHash])
    | Except.ok receipt =>
      match jsReceiptHash receipt with
      | none => (Except.error noHashMsg,
                 [NetCall.sendUserOp [call], NetCall.waitReceipt userOpHash])
      | some hash =>
        if hash = "" then
          (Except.error noHashMsg,
           [NetCall.sendUserOp [call], NetCall.waitReceipt userOpHash])
        else
          (Except.ok { success := true, transactionHash := some hash,
                       explorerUrl := some (getCeloExplorerUrl hash "tx") },
           [NetCall.sendUserOp [call], NetCall.waitReceipt userOpHash])

/-- Body of the outer `try` block of `sendPaymentWithKernel`
(src/unnamed/part_001 lines 207–412): validation, per-currency encoding, and
the submit/await tail.  A thrown error is `Except.error`; early `return`s of
failure-shaped results are `Except.ok`.  The token registry
`CELO_STABLE_TOKENS` lives in the absent `lib/celo.ts` and is therefore a
parameter `tokens` (the spec's fixed asset registry, `none` = unconfigured). -/
def sendPaymentWithKernelTry (tokens : Currency → Option String)
    (kernelClient : KernelAccountClient) (params : PaymentParams) :
    Except String PaymentResult × List NetCall :=
  if toInvalid params then
    (Except.ok { success := false, error := some "Dirección de destino inválida" }, [])
  else if amountInvalid params then
    (Except.ok { success := false,
                 error := some "Monto inválido. Debe ser un número mayor a 0" }, [])
  else if params.currency = Currency.CELO then
    -- native CELO transfer: value = parseEther(amount), empty call data
    match parseUnits params.amount 18 with
    | Except.error e => (Except.error e, [])
    | Except.ok amountInWei =>
      submitAndWait kernelClient
        { toAddr := params.toAddr, value := amountInWei, data := "0x" }
  else
    -- ERC20 token transfer
    match tokens params.currency with
    | none =>
      (Except.ok { success := false,
                   error := some ("Dirección del contrato para " ++
                     currencyName params.currency ++
                     " no configurada. Por favor, actualiza lib/celo.ts con la dirección correcta.") }, [])
    | some tokenAddress =>
      match parseUnits params.amount 18 with
      | Except.error e => (Except.error e, [])
      | Except.ok amountInWei =>
        match encodeTransfer params.toAddr amountInWei with
        | Except.error e => (Except.error e, [])
        | Except.ok data =>
          -- the console-only sanity checks on callObject have no effect
          submitAndWait kernelClient
            { toAddr := tokenAddress, value := 0, data := data }

/-- Suffix appended to the error message in the funding-guidance branch. -/
def fundingSuffix : String :=
  ". Asegúrate de tener fondos suficientes y que el paymaster esté financiado."

/-- The fixed sponsorship-quota guidance message of the billing branch. -/
def billingMsg : String :=
  "⚠️ El paymaster de Pimlico tiene un límite mensual.\n\n" ++
  "Por favor verifica tu plan en el dashboard de Pimlico.\n\n" ++
  "Opciones:\n" ++
  "1. Verificar fondos del paymaster en Pimlico dashboard\n" ++
  "2. Actualizar plan si es necesario\n" ++
  "3. Usar Alfajores (testnet) para desarrollo"

/-- The message returned when the outer catch classifies the error as the
benign encoding defect. -/
def encodingCaughtMsg : String :=
  "La transacción fue enviada pero hubo un error al procesar la respuesta. Por favor verifica en el explorador de blockchain."

/-- `errorMessage.toLowerCase().includes(patt)`. -/
def containsLower (msg patt : String) : Bool :=
  containsSubstr (toLowerStr msg) patt

/-- The outer `catch` block of `sendPaymentWithKernel` (lines 413–457):
classify a thrown error (by its message `e`) as benign-encoding,
funding-related, or sponsorship-quota-related, and otherwise return the
message verbatim — always as a failure-shaped `PaymentResult`. -/
def catchClassify (e : String) : PaymentResult :=
  if isEncodingError e then
    { success := false, error := some encodingCaughtMsg }
  else if containsLower e "fund" || containsLower e "balance" ||
          containsLower e "insufficient" then
    { success := false, error := some (e ++ fundingSuffix) }
  else if containsLower e "monthly" || containsLower e "sponsorship limit" ||
          containsLower e "billing plan" || containsLower e "upgrade your billing" then
    { success := false, error := some billingMsg }
  else
    { success := false, error := some e }

/-- `sendPaymentWithKernel` (src/unnamed/part_001 lines 203–458): the `try`
body above plus the outer `catch` (`catchClassify`) — always returning a
`PaymentResult` value.  The second component is the trace of network calls
made. -/
def sendPaymentWithKernel (tokens : Currency → Option String)
    (kernelClient : KernelAccountClient) (params : PaymentParams) :
    PaymentResult × List NetCall :=
  match sendPaymentWithKernelTry tokens kernelClient params with
  | (Except.ok r, t) => (r, t)
  | (Except.error e, t) => (catchClassify e, t)

/-- The call object `sendPaymentWithKernel` hands to `sendUserOperation` for
given params (for stating theorems): `none` when validation of the encoding
step fails, so no submission happens. -/
def encodesCall (tokens : Currency → Option String) (params : PaymentParams) :
    Option CallObj :=
  if params.currency = Currency.CELO then
    match parseUnits params.amount 18 with
    | Except.error _ => none
    | Except.ok v => some { toAddr := params.toAddr, value := v, data := "0x" }
  else
    match tokens params.currency with
    | none => none
    | some tokenAddress =>
      match parseUnits params.amount 18 with
      | Except.error _ => none
      | Except.ok v =>
        match encodeTransfer params.toAddr v with
        | Except.error _ => none
        | Except.ok d => some { toAddr := tokenAddress, value := 0, data := d }

/-! ### Wallet utilities (src/lib/wallet-utils.ts) -/

/-- `walletClientType: 'waap' | 'external'`. -/
inductive WalletClientType where
  | waap
  | external
deriving DecidableEq, Repr

/-- `WaaPWallet`. -/
structure WaaPWallet where
  address : String
  walletClientType : WalletClientType
  chainId : String
  connected : Bool
deriving DecidableEq, Repr

/-- `getEOAAddress` (wallet-utils.ts lines 184–203): first external wallet's
address if truthy, else first waap wallet's address if truthy, else null.
(`externalWallet?.address` is falsy when the wallet is absent or its address
is the empty string.) -/
def getEOAAddress (wallets : List WaaPWallet) : Option String :=
  let waapFallback : Option String :=
    match wallets.find? (fun w => w.walletClientType = WalletClientType.waap) with
    | some w => if w.address = "" then none else some w.address
    | none => none
  match wallets.find? (fun w => w.walletClientType = WalletClientType.external) with
  | some w => if w.address = "" then waapFallback else some w.address
  | none => waapFallback

/-- `getEOAWallet` (wallet-utils.ts lines 215–234): first external wallet,
else first waap wallet, else null. -/
def getEOAWallet (wallets : List WaaPWallet) : Option WaaPWallet :=
  match wallets.find? (fun w => w.walletClientType = WalletClientType.external) with
  | some w => some w
  | none => wallets.find? (fun w => w.walletClientType = WalletClientType.waap)

/-! ### Helper lemmas -/

theorem containsSubstr_spec {s patt : String} :
    containsSubstr s patt = true ↔ patt.data <:+: s.data := by
  simp only [containsSubstr, List.any_eq_true, List.mem_tails,
    List.isPrefixOf_iff_prefix, List.infix_iff_prefix_suffix]
  exact ⟨fun ⟨t, hsuf, hpre⟩ => ⟨t, hpre, hsuf⟩, fun ⟨t, hpre, hsuf⟩ => ⟨t, hsuf, hpre⟩⟩

theorem containsLower_of_containsSubstr {msg patt sub : String}
    (h : containsSubstr msg patt = true)
    (hsub : containsSubstr (toLowerStr patt) sub = true) :
    containsLower msg sub = true := by
  rw [containsSubstr_spec] at h hsub
  show containsSubstr (toLowerStr msg) sub = true
  rw [containsSubstr_spec]
  exact List.IsInfix.trans hsub (h.map Char.toLower)

theorem submitAndWait_sends {client : KernelAccountClient} {call : CallObj}
    {cs : List CallObj}
    (h : NetCall.sendUserOp cs ∈ (submitAndWait client call).2) : cs = [call] := by
  unfold submitAndWait at h
  split at h
  · simp_all
  · split at h
    · split at h <;> simp_all
    · split at h
      · simp_all
      · split at h <;> simp_all

theorem submitAndWait_ok_shape {client : KernelAccountClient} {call : CallObj}
    {r : PaymentResult}
    (h : (submitAndWait client call).1 = Except.ok r) :
    r.success = true ∧ r.transactionHash.isSome := by
  unfold submitAndWait at h
  split at h
  · simp_all
  · split at h
    · split at h <;> simp_all <;> (cases h) <;> simp
    · split at h
      · simp_all
      · split at h <;> simp_all <;> (cases h) <;> simp

theorem submitAndWait_benign {client : KernelAccountClient} {call : CallObj}
    {opHash msg : String}
    (hs : client.sendUserOperation [call] = Except.ok opHash)
    (hw : client.waitForUserOperationReceipt opHash = Except.error msg)
    (hben : isEncodingError msg = true) :
    submitAndWait client call =
      (Except.ok { success := true, transactionHash := some opHash,
                   explorerUrl := some (getCeloExplorerUrl opHash "tx") },
       [NetCall.sendUserOp [call], NetCall.waitReceipt opHash]) := by
  unfold submitAndWait
  simp only [hs, hw, hben, if_true]

theorem submitAndWait_hardfail {client : KernelAccountClient} {call : CallObj}
    {opHash msg : String}
    (hs : client.sendUserOperation [call] = Except.ok opHash)
    (hw : client.waitForUserOperationReceipt opHash = Except.error msg)
    (hben : isEncodingError msg = false) :
    submitAndWait client call =
      (Except.error msg,
       [NetCall.sendUserOp [call], NetCall.waitReceipt opHash]) := by
  unfold submitAndWait
  simp only [hs, hw, hben, Bool.false_eq_true, if_false]

theorem submitAndWait_noHash {client : KernelAccountClient} {call : CallObj}
    {opHash : String} {rcpt : Option UserOpReceipt}
    (hs : client.sendUserOperation [call] = Except.ok opHash)
    (hw : client.waitForUserOperationReceipt opHash = Except.ok rcpt)
    (hn : jsReceiptHash rcpt = none) :
    submitAndWait client call =
      (Except.error noHashMsg,
       [NetCall.sendUserOp [call], NetCall.waitReceipt opHash]) := by
  unfold submitAndWait
  simp only [hs, hw, hn]

theorem try_after_submit {tokens : Currency → Option String}
    (kernelClient : KernelAccountClient) {params : PaymentParams} {call : CallObj}
    (hvt : toInvalid params = false) (hva : amountInvalid params = false)
    (henc : encodesCall tokens params = some call) :
    sendPaymentWithKernelTry tokens kernelClient params =
      submitAndWait kernelClient call := by
  unfold sendPaymentWithKernelTry
  unfold encodesCall at henc
  simp only [hvt, hva, Bool.false_eq_true, if_false]
  by_cases hc : params.currency = Currency.CELO
  · rw [if_pos hc] at henc ⊢
    cases hpu : parseUnits params.amount 18 with
    | error e => simp [hpu] at henc
    | ok v =>
      simp only [hpu, Option.some.injEq] at henc
      subst henc
      rfl
  · rw [if_neg hc] at henc ⊢
    cases ht : tokens params.currency with
    | none => simp [ht] at henc
    | some tokenAddress =>
      cases hpu : parseUnits params.amount 18 with
      | error e => simp [ht, hpu] at henc
      | ok v =>
        cases hed : encodeTransfer params.toAddr v with
        | error e => simp [ht, hpu, hed] at henc
        | ok d =>
          simp only [ht, hpu, hed, Option.some.injEq] at henc
          subst henc
          simp only [hed]

theorem try_trace_sends {tokens : Currency → Option String}
    {client : KernelAccountClient} {params : PaymentParams} {cs : List CallObj}
    (h : NetCall.sendUserOp cs ∈ (sendPaymentWithKernelTry tokens client params).2) :
    ∃ call, encodesCall tokens params = some call ∧ cs = [call] := by
  unfold sendPaymentWithKernelTry at h
  split at h
  · simp at h
  · split at h
    · simp at h
    · unfold encodesCall
      split at h
      · next hc =>
        simp only [hc, if_true]
        split at h
        · simp at h
        · next v hpu => exact ⟨_, rfl, submitAndWait_sends h⟩
      · next hc =>
        simp only [if_neg hc]
        split at h
        · simp at h
        · next tokenAddress ht =>
          split at h
          · simp at h
          · next v hpu =>
            split at h
            · simp at h
            · next d hed => exact ⟨_, rfl, submitAndWait_sends h⟩

theorem wrapper_trace {tokens : Currency → Option String}
    {client : KernelAccountClient} {params : PaymentParams} :
    (sendPaymentWithKernel tokens client params).2 =
      (sendPaymentWithKernelTry tokens client params).2 := by
  unfold sendPaymentWithKernel
  rcases h : sendPaymentWithKernelTry tokens client params with ⟨res, tr⟩
  cases res <;> simp

theorem wrapper_of_try_ok {tokens : Currency → Option String}
    {client : KernelAccountClient} {params : PaymentParams}
    {r : PaymentResult} {t : List NetCall}
    (h : sendPaymentWithKernelTry tokens client params = (Except.ok r, t)) :
    sendPaymentWithKernel tokens client params = (r, t) := by
  unfold sendPaymentWithKernel
  rw [h]

theorem wrapper_of_try_error {tokens : Currency → Option String}
    {client : KernelAccountClient} {params : PaymentParams}
    {e : String} {t : List NetCall}
    (h : sendPaymentWithKernelTry tokens client params = (Except.error e, t)) :
    sendPaymentWithKernel tokens client params = (catchClassify e, t) := by
  unfold sendPaymentWithKernel
  rw [h]

theorem try_ok_shape {tokens : Currency → Option String}
    {client : KernelAccountClient} {params : PaymentParams}
    {r : PaymentResult} {t : List NetCall}
    (h : sendPaymentWithKernelTry tokens client params = (Except.ok r, t)) :
    (r.success = true ∧ r.transactionHash.isSome) ∨
    (r.success = false ∧ r.error.isSome) := by
  unfold sendPaymentWithKernelTry at h
  split at h
  · right; cases h; simp
  · split at h
    · right; cases h; simp
    · split at h
      · split at h
        · simp at h
        · left
          exact submitAndWait_ok_shape (congrArg Prod.fst h)
      · split at h
        · right; cases h; simp
        · split at h
          · simp at h
          · split at h
            · simp at h
            · left
              exact submitAndWait_ok_shape (congrArg Prod.fst h)

theorem length_pos_of_ne_empty {s : String} (h : s ≠ "") : 0 < s.length := by
  cases s with
  | mk data =>
    cases data with
    | nil => exact absurd rfl h
    | cons c cs => simp [String.length]

theorem append_ne_empty_of_right {a b : String} (hb : 0 < b.length) :
    a ++ b ≠ "" := by
  intro h
  have h2 := congrArg String.length h
  rw [String.length_append] at h2
  have h0 : ("" : String).length = 0 := rfl
  omega

theorem parseUnits_error_shape {v : String} {d : Nat} {e : String}
    (h : parseUnits v d = Except.error e) :
    e = "Number \x22" ++ v ++ "\x22 is not a valid decimal number." := by
  unfold parseUnits at h
  split at h
  · injection h with h
    exact h.symm
  · simp at h

theorem parseUnits_error_nonempty {v : String} {d : Nat} {e : String}
    (h : parseUnits v d = Except.error e) : e ≠ "" := by
  rw [parseUnits_error_shape h]
  apply append_ne_empty_of_right
  decide

theorem encodeTransfer_error_nonempty {a : String} {n : Int} {e : String}
    (h : encodeTransfer a n = Except.error e) : e ≠ "" := by
  unfold encodeTransfer at h
  split at h
  · injection h with h
    rw [← h]
    apply append_ne_empty_of_right
    decide
  · split at h
    · injection h with h
      rw [← h]
      decide
    · simp at h

theorem catchClassify_shape {e : String} (he : e ≠ "") :
    (catchClassify e).success = false ∧
    ∃ m, (catchClassify e).error = some m ∧ m ≠ "" := by
  unfold catchClassify
  split
  · exact ⟨rfl, encodingCaughtMsg, rfl, by decide⟩
  · split
    · exact ⟨rfl, e ++ fundingSuffix, rfl, append_ne_empty_of_right (by decide)⟩
    · split
      · exact ⟨rfl, billingMsg, rfl, by decide⟩
      · exact ⟨rfl, e, rfl, he⟩

theorem catchClassify_failure_shape (e : String) :
    (catchClassify e).success = false ∧ ((catchClassify e).error).isSome := by
  unfold catchClassify
  split
  · simp
  · split
    · simp
    · split <;> simp

theorem try_error_classified {tokens : Currency → Option String}
    {client : KernelAccountClient} {params : PaymentParams}
    {opH : String} {rcpt : Option UserOpReceipt} {e : String} {tr : List NetCall}
    (hs : ∀ cs, client.sendUserOperation cs = Except.ok opH)
    (hw : ∀ x, client.waitForUserOperationReceipt x = Except.ok rcpt)
    (hn : jsReceiptHash rcpt = none)
    (h : sendPaymentWithKernelTry tokens client params = (Except.error e, tr)) :
    e ≠ "" := by
  unfold sendPaymentWithKernelTry at h
  split at h
  · simp at h
  · split at h
    · simp at h
    · split at h
      · split at h
        · next e' hpu =>
          simp only [Prod.mk.injEq, Except.error.injEq] at h
          obtain ⟨rfl, -⟩ := h
          exact parseUnits_error_nonempty hpu
        · rw [submitAndWait_noHash (hs _) (hw _) hn] at h
          simp only [Prod.mk.injEq, Except.error.injEq] at h
          obtain ⟨rfl, -⟩ := h
          decide
      · split at h
        · simp at h
        · split at h
          · next e' hpu =>
            simp only [Prod.mk.injEq, Except.error.injEq] at h
            obtain ⟨rfl, -⟩ := h
            exact parseUnits_error_nonempty hpu
          · split at h
            · next e' hed =>
              simp only [Prod.mk.injEq, Except.error.injEq] at h
              obtain ⟨rfl, -⟩ := h
              exact encodeTransfer_error_nonempty hed
            · rw [submitAndWait_noHash (hs _) (hw _) hn] at h
              simp only [Prod.mk.injEq, Except.error.injEq] at h
              obtain ⟨rfl, -⟩ := h
              decide

theorem try_ok_classified {tokens : Currency → Option String}
    {client : KernelAccountClient} {params : PaymentParams}
    {opH : String} {rcpt : Option UserOpReceipt} {r : PaymentResult}
    {tr : List NetCall}
    (hs : ∀ cs, client.sendUserOperation cs = Except.ok opH)
    (hw : ∀ x, client.waitForUserOperationReceipt x = Except.ok rcpt)
    (hn : jsReceiptHash rcpt = none)
    (h : sendPaymentWithKernelTry tokens client params = (Except.ok r, tr)) :
    r.success = false ∧ ∃ m, r.error = some m ∧ m ≠ "" := by
  unfold sendPaymentWithKernelTry at h
  split at h
  · simp only [Prod.mk.injEq, Except.ok.injEq] at h
    obtain ⟨rfl, -⟩ := h
    exact ⟨rfl, _, rfl, by decide⟩
  · split at h
    · simp only [Prod.mk.injEq, Except.ok.injEq] at h
      obtain ⟨rfl, -⟩ := h
      exact ⟨rfl, _, rfl, by decide⟩
    · split at h
      · split at h
        · simp at h
        · rw [submitAndWait_noHash (hs _) (hw _) hn] at h
          simp at h
      · split at h
        · simp only [Prod.mk.injEq, Except.ok.injEq] at h
          obtain ⟨rfl, -⟩ := h
          refine ⟨rfl, _, rfl, ?_⟩
          apply append_ne_empty_of_right
          decide
        · split at h
          · simp at h
          · split at h
            · simp at h
            · rw [submitAndWait_noHash (hs _) (hw _) hn] at h
              simp at h

theorem funding_ne_billing (msg : String) : msg ++ fundingSuffix ≠ billingMsg := by
  intro h
  have h2 := congrArg (fun s => s.data.getLast?) h
  simp only [String.data_append, List.getLast?_append] at h2
  rw [show fundingSuffix.data.getLast? = some '.' from by decide] at h2
  rw [show billingMsg.data.getLast? = some 'o' from by decide] at h2
  simp [Option.or] at h2

theorem wrapper_invalid_addr {tokens : Currency → Option String}
    {client : KernelAccountClient} {params : PaymentParams}
    (h : toInvalid params = true) :
    sendPaymentWithKernel tokens client params =
      ({ success := false, error := some "Dirección de destino inválida" }, []) := by
  apply wrapper_of_try_ok
  unfold sendPaymentWithKernelTry
  rw [if_pos h]

theorem wrapper_invalid_amount {tokens : Currency → Option String}
    {client : KernelAccountClient} {params : PaymentParams}
    (h1 : toInvalid params = false) (h2 : amountInvalid params = true) :
    sendPaymentWithKernel tokens client params =
      ({ success := false,
         error := some "Monto inválido. Debe ser un número mayor a 0" }, []) := by
  apply wrapper_of_try_ok
  unfold sendPaymentWithKernelTry
  rw [if_neg (by rw [h1]; exact Bool.false_ne_true), if_pos h2]

/-! ### Claims -/

/-- Claim C2: for every token registry, every behaviour of the injected
kernel client (including `sendUserOperation` or `waitForUserOperationReceipt`
rejecting with arbitrary errors) and every `PaymentParams`,
`sendPaymentWithKernel` is a total function into `PaymentResult` (the
embedding returns a value on all paths — no raised error escapes the outer
catch), and every failure-shaped result (`success = false`) carries an error
message. -/
theorem claim_C2 (tokens : Currency → Option String)
    (client : KernelAccountClient) (params : PaymentParams) :
    (sendPaymentWithKernel tokens client params).1.success = false →
    ((sendPaymentWithKernel tokens client params).1.error).isSome = true := by
  intro hf
  rcases h : sendPaymentWithKernelTry tokens client params with ⟨res, tr⟩
  cases res with
  | ok r =>
    rw [wrapper_of_try_ok h] at hf ⊢
    rcases try_ok_shape h with ⟨hsucc, _⟩ | ⟨_, he⟩
    · rw [hsucc] at hf; cases hf
    · exact he
  | error e =>
    rw [wrapper_of_try_error h]
    exact (catchClassify_failure_shape e).2

/-- Witness for C2 at a concrete failing input (malformed recipient). -/
theorem claim_C2_witness :
    (sendPaymentWithKernel (fun _ => none)
        ⟨fun _ => Except.ok "0x1", fun _ => Except.ok none⟩
        ⟨"0xaaaaaaaaaaaaaaaaaaaaaaaaaaaaaaaaaaaaaaaa", "abc", "1",
         Currency.CELO⟩).1.success = false ∧
    ((sendPaymentWithKernel (fun _ => none)
        ⟨fun _ => Except.ok "0x1", fun _ => Except.ok none⟩
        ⟨"0xaaaaaaaaaaaaaaaaaaaaaaaaaaaaaaaaaaaaaaaa", "abc", "1",
         Currency.CELO⟩).1.error).isSome = true :=
  ⟨by decide, claim_C2 _ _ _ (by decide)⟩

/-- Claim C3 counterexample: the recipient
`"0xzzzzzzzzzzzzzzzzzzzzzzzzzzzzzzzzzzzzzzzz"` is `0x`-prefixed and 42
characters long but is *not* a well-formed 20-byte hexadecimal address; the
claim says validation must fail with no network call, yet the code (which
checks only prefix and length, not hex digits) submits the operation on the
native-CELO path and returns success — the trace shows both network calls. -/
theorem claim_C3_counterexample :
    sendPaymentWithKernel (fun _ => none)
      ⟨fun _ => Except.ok "0xophash",
       fun _ => Except.ok (some ⟨some ⟨some "0xtxhash"⟩⟩)⟩
      ⟨"0xaaaaaaaaaaaaaaaaaaaaaaaaaaaaaaaaaaaaaaaa",
       "0xzzzzzzzzzzzzzzzzzzzzzzzzzzzzzzzzzzzzzzzz", "1", Currency.CELO⟩ =
    ({ success := true, transactionHash := some "0xtxhash",
       explorerUrl := some "https://explorer.celo.org/tx/0xtxhash" },
     [NetCall.sendUserOp
        [⟨"0xzzzzzzzzzzzzzzzzzzzzzzzzzzzzzzzzzzzzzzzz",
          1000000000000000000, "0x"⟩],
      NetCall.waitReceipt "0xophash"]) := by decide

/-- Claim C3 (amended): for every recipient failing the code's actual guard —
empty, not `0x`-prefixed, or of length ≠ 42 — `sendPaymentWithKernel` returns
the invalid-address validation failure and makes no network call (empty
trace).  Hexadecimal content of the 40 tail characters is not validated. -/
theorem claim_C3 (tokens : Currency → Option String)
    (client : KernelAccountClient) (params : PaymentParams)
    (h : toInvalid params = true) :
    sendPaymentWithKernel tokens client params =
      ({ success := false, error := some "Dirección de destino inválida" }, []) :=
  wrapper_invalid_addr h

/-- Witness for the amended C3 at a concrete non-`0x` recipient. -/
theorem claim_C3_witness :
    toInvalid ⟨"0xaaaaaaaaaaaaaaaaaaaaaaaaaaaaaaaaaaaaaaaa", "abc", "1",
               Currency.CELO⟩ = true ∧
    sendPaymentWithKernel (fun _ => none)
      ⟨fun _ => Except.ok "0x1", fun _ => Except.ok none⟩
      ⟨"0xaaaaaaaaaaaaaaaaaaaaaaaaaaaaaaaaaaaaaaaa", "abc", "1",
       Currency.CELO⟩ =
      ({ success := false, error := some "Dirección de destino inválida" }, []) :=
  ⟨by decide, claim_C3 _ _ _ (by decide)⟩

/-- Claim C4: for every amount string that is non-numeric (`parseFloat`
yields NaN) or parses to a value ≤ 0, `sendPaymentWithKernel` returns a
validation failure before any network call: the result is failure-shaped and
the trace is empty, and when the recipient guard passed the result is exactly
the invalid-amount error. -/
theorem claim_C4 :
    (∀ (tokens : Currency → Option String) (client : KernelAccountClient)
       (params : PaymentParams), amountInvalid params = true →
       (sendPaymentWithKernel tokens client params).1.success = false ∧
       (sendPaymentWithKernel tokens client params).2 = []) ∧
    (∀ (tokens : Currency → Option String) (client : KernelAccountClient)
       (params : PaymentParams),
       toInvalid params = false → amountInvalid params = true →
       sendPaymentWithKernel tokens client params =
         ({ success := false,
            error := some "Monto inválido. Debe ser un número mayor a 0" }, [])) := by
  constructor
  · intro tokens client params ha
    by_cases hv : toInvalid params = true
    · rw [wrapper_invalid_addr hv]
      exact ⟨rfl, rfl⟩
    · rw [wrapper_invalid_amount (Bool.of_not_eq_true hv) ha]
      exact ⟨rfl, rfl⟩
  · intro tokens client params hv ha
    exact wrapper_invalid_amount hv ha

/-- Witness for C4 at the concrete non-positive amount `"0"`. -/
theorem claim_C4_witness :
    amountInvalid ⟨"0xaaaaaaaaaaaaaaaaaaaaaaaaaaaaaaaaaaaaaaaa",
                   "0xbbbbbbbbbbbbbbbbbbbbbbbbbbbbbbbbbbbbbbbb", "0",
                   Currency.CELO⟩ = true ∧
    sendPaymentWithKernel (fun _ => none)
      ⟨fun _ => Except.ok "0x1", fun _ => Except.ok none⟩
      ⟨"0xaaaaaaaaaaaaaaaaaaaaaaaaaaaaaaaaaaaaaaaa",
       "0xbbbbbbbbbbbbbbbbbbbbbbbbbbbbbbbbbbbbbbbb", "0", Currency.CELO⟩ =
      ({ success := false,
         error := some "Monto inválido. Debe ser un número mayor a 0" }, []) :=
  ⟨by decide, claim_C4.2 _ _ _ (by decide) (by decide)⟩

/-- Claim C6: for every native-CELO transfer, any call list handed to
`sendUserOperation` is the single call whose native value is
`parseUnits amount 18` (the amount at 18 decimal places) and whose call data
is empty (`"0x"`); in particular `parseUnits "1.0" 18` is
1000000000000000000. -/
theorem claim_C6 :
    (∀ (tokens : Currency → Option String) (client : KernelAccountClient)
       (params : PaymentParams) (v : Int) (cs : List CallObj),
       params.currency = Currency.CELO →
       parseUnits params.amount 18 = Except.ok v →
       NetCall.sendUserOp cs ∈ (sendPaymentWithKernel tokens client params).2 →
       cs = [{ toAddr := params.toAddr, value := v, data := "0x" }]) ∧
    parseUnits "1.0" 18 = Except.ok 1000000000000000000 := by
  constructor
  · intro tokens client params v cs hc hpu hmem
    rw [wrapper_trace] at hmem
    obtain ⟨call, henc, rfl⟩ := try_trace_sends hmem
    unfold encodesCall at henc
    rw [if_pos hc, hpu] at henc
    simp only [Option.some.injEq] at henc
    rw [← henc]
  · decide

set_option maxRecDepth 8000 in
/-- Witness for C6: a concrete native-CELO run of amount `"1.0"` whose trace
contains exactly the expected single call. -/
theorem claim_C6_witness :
    NetCall.sendUserOp
        [⟨"0xbbbbbbbbbbbbbbbbbbbbbbbbbbbbbbbbbbbbbbbb",
          1000000000000000000, "0x"⟩] ∈
      (sendPaymentWithKernel (fun _ => none)
        ⟨fun _ => Except.ok "0xop", fun _ => Except.ok (some ⟨some ⟨some "0xtx"⟩⟩)⟩
        ⟨"0xaaaaaaaaaaaaaaaaaaaaaaaaaaaaaaaaaaaaaaaa",
         "0xbbbbbbbbbbbbbbbbbbbbbbbbbbbbbbbbbbbbbbbb", "1.0",
         Currency.CELO⟩).2 ∧
    [(⟨"0xbbbbbbbbbbbbbbbbbbbbbbbbbbbbbbbbbbbbbbbb",
       1000000000000000000, "0x"⟩ : CallObj)] =
      [{ toAddr := "0xbbbbbbbbbbbbbbbbbbbbbbbbbbbbbbbbbbbbbbbb",
         value := 1000000000000000000, data := "0x" }] :=
  ⟨by decide,
   claim_C6.1 (fun _ => none)
     ⟨fun _ => Except.ok "0xop", fun _ => Except.ok (some ⟨some ⟨some "0xtx"⟩⟩)⟩
     ⟨"0xaaaaaaaaaaaaaaaaaaaaaaaaaaaaaaaaaaaaaaaa",
      "0xbbbbbbbbbbbbbbbbbbbbbbbbbbbbbbbbbbbbbbbb", "1.0", Currency.CELO⟩
     1000000000000000000 _ (by decide) (by decide) (by decide)⟩

set_option maxRecDepth 8000 in
/-- Claim C5: for every token-path transfer (currency ≠ CELO) with a
configured token address, any call list handed to `sendUserOperation` is the
single call targeting the token contract with native value exactly 0 and call
data the ABI encoding of `transfer(recipient, parseUnits amount 18)`; a
token-path call never carries non-zero native value; and concretely
`parseUnits "10.5" 18 = 10500000000000000000` with the corresponding
`transfer` encoding. -/
theorem claim_C5 :
    (∀ (tokens : Currency → Option String) (client : KernelAccountClient)
       (params : PaymentParams) (addr : String) (v : Int) (d : String)
       (cs : List CallObj),
       params.currency ≠ Currency.CELO →
       tokens params.currency = some addr →
       parseUnits params.amount 18 = Except.ok v →
       encodeTransfer params.toAddr v = Except.ok d →
       NetCall.sendUserOp cs ∈ (sendPaymentWithKernel tokens client params).2 →
       cs = [{ toAddr := addr, value := 0, data := d }]) ∧
    (∀ (tokens : Currency → Option String) (client : KernelAccountClient)
       (params : PaymentParams) (cs : List CallObj) (c : CallObj),
       params.currency ≠ Currency.CELO →
       NetCall.sendUserOp cs ∈ (sendPaymentWithKernel tokens client params).2 →
       c ∈ cs → c.value = 0) ∧
    parseUnits "10.5" 18 = Except.ok 10500000000000000000 ∧
    encodeTransfer "0x1111111111111111111111111111111111111111"
        10500000000000000000 =
      Except.ok "0xa9059cbb000000000000000000000000111111111111111111111111111111111111111100000000000000000000000000000000000000000000000091b77e5e5d9a0000" := by
  refine ⟨?_, ?_, by decide, by decide⟩
  · intro tokens client params addr v d cs hc hreg hpu hed hmem
    rw [wrapper_trace] at hmem
    obtain ⟨call, henc, rfl⟩ := try_trace_sends hmem
    unfold encodesCall at henc
    rw [if_neg hc] at henc
    simp only [hreg, hpu, hed, Option.some.injEq] at henc
    rw [← henc]
  · intro tokens client params cs c hc hmem hcin
    rw [wrapper_trace] at hmem
    obtain ⟨call, henc, rfl⟩ := try_trace_sends hmem
    simp only [List.mem_singleton] at hcin
    subst hcin
    unfold encodesCall at henc
    rw [if_neg hc] at henc
    cases ht : tokens params.currency with
    | none => simp [ht] at henc
    | some addr =>
      cases hpu : parseUnits params.amount 18 with
      | error e => simp [ht, hpu] at henc
      | ok v =>
        cases hed : encodeTransfer params.toAddr v with
        | error e => simp [ht, hpu, hed] at henc
        | ok d =>
          simp only [ht, hpu, hed, Option.some.injEq] at henc
          subst henc
          rfl

set_option maxRecDepth 8000 in
/-- Witness for C5: a concrete MOT-token run of amount `"10.5"` whose trace
contains exactly the expected zero-value `transfer` call. -/
theorem claim_C5_witness :
    NetCall.sendUserOp
        [⟨"0xcccccccccccccccccccccccccccccccccccccccc", 0,
          "0xa9059cbb000000000000000000000000111111111111111111111111111111111111111100000000000000000000000000000000000000000000000091b77e5e5d9a0000"⟩] ∈
      (sendPaymentWithKernel (fun _ => some "0xcccccccccccccccccccccccccccccccccccccccc")
        ⟨fun _ => Except.ok "0xop", fun _ => Except.ok (some ⟨some ⟨some "0xtx"⟩⟩)⟩
        ⟨"0xaaaaaaaaaaaaaaaaaaaaaaaaaaaaaaaaaaaaaaaa",
         "0x1111111111111111111111111111111111111111", "10.5",
         Currency.MOT⟩).2 ∧
    [(⟨"0xcccccccccccccccccccccccccccccccccccccccc", 0,
       "0xa9059cbb000000000000000000000000111111111111111111111111111111111111111100000000000000000000000000000000000000000000000091b77e5e5d9a0000"⟩ : CallObj)] =
      [{ toAddr := "0xcccccccccccccccccccccccccccccccccccccccc", value := 0,
         data := "0xa9059cbb000000000000000000000000111111111111111111111111111111111111111100000000000000000000000000000000000000000000000091b77e5e5d9a0000" }] :=
  ⟨by decide,
   claim_C5.1 (fun _ => some "0xcccccccccccccccccccccccccccccccccccccccc")
     ⟨fun _ => Except.ok "0xop", fun _ => Except.ok (some ⟨some ⟨some "0xtx"⟩⟩)⟩
     ⟨"0xaaaaaaaaaaaaaaaaaaaaaaaaaaaaaaaaaaaaaaaa",
      "0x1111111111111111111111111111111111111111", "10.5", Currency.MOT⟩
     "0xcccccccccccccccccccccccccccccccccccccccc" 10500000000000000000
     "0xa9059cbb000000000000000000000000111111111111111111111111111111111111111100000000000000000000000000000000000000000000000091b77e5e5d9a0000"
     _ (by decide) (by decide) (by decide) (by decide) (by decide)⟩

/-- Claim C1 counterexample: a concrete transfer in which submission succeeds
(`userOpHash = "0xophash"`) and the receipt wait fails with an
"invalid codepoint" error.  As the claim says, the result has
`success = true`, `transactionHash` equal to the operation identifier and an
`explorerUrl` derived from it — but, contrary to the claim's last conjunct,
the returned outcome carries **no** verification caveat: its `error` field
(the only message-carrying field of `PaymentResult`) is `none`; the caveat is
only written to the console.  The result is indistinguishable from a normal
confirmed success. -/
theorem claim_C1_counterexample :
    (sendPaymentWithKernel (fun _ => none)
      ⟨fun _ => Except.ok "0xophash",
       fun _ => Except.error
         "invalid codepoint at offset 2; unexpected continuation byte"⟩
      ⟨"0xaaaaaaaaaaaaaaaaaaaaaaaaaaaaaaaaaaaaaaaa",
       "0xbbbbbbbbbbbbbbbbbbbbbbbbbbbbbbbbbbbbbbbb", "1",
       Currency.CELO⟩).1 =
    { success := true, transactionHash := some "0xophash", error := none,
      explorerUrl := some "https://explorer.celo.org/tx/0xophash" } := by
  decide

/-- Claim C1 (amended): for every transfer attempt in which submission
succeeds with identifier `opHash` and the receipt wait fails with an error
whose message contains "invalid codepoint", `sendPaymentWithKernel` returns
`success = true` with `transactionHash = opHash` and an `explorerUrl` derived
from it — and **no** verification caveat in the returned result (its `error`
field is `none`; the caveat appears only in a console warning). -/
theorem claim_C1 (tokens : Currency → Option String)
    (client : KernelAccountClient) (params : PaymentParams) (call : CallObj)
    (opHash msg : String)
    (hvt : toInvalid params = false) (hva : amountInvalid params = false)
    (henc : encodesCall tokens params = some call)
    (hs : client.sendUserOperation [call] = Except.ok opHash)
    (hw : client.waitForUserOperationReceipt opHash = Except.error msg)
    (hmsg : containsSubstr msg "invalid codepoint" = true) :
    (sendPaymentWithKernel tokens client params).1 =
      { success := true, transactionHash := some opHash, error := none,
        explorerUrl := some (getCeloExplorerUrl opHash "tx") } := by
  have hben : isEncodingError msg = true := by
    unfold isEncodingError
    rw [hmsg]
    simp
  have htry := try_after_submit client hvt hva henc
  rw [submitAndWait_benign hs hw hben] at htry
  rw [wrapper_of_try_ok htry]

/-- Witness for the amended C1 at a concrete CELO transfer. -/
theorem claim_C1_witness :
    (sendPaymentWithKernel (fun _ => none)
      ⟨fun _ => Except.ok "0xophash",
       fun _ => Except.error "invalid codepoint at offset 2"⟩
      ⟨"0xaaaaaaaaaaaaaaaaaaaaaaaaaaaaaaaaaaaaaaaa",
       "0xbbbbbbbbbbbbbbbbbbbbbbbbbbbbbbbbbbbbbbbb", "1",
       Currency.CELO⟩).1 =
      { success := true, transactionHash := some "0xophash", error := none,
        explorerUrl := some (getCeloExplorerUrl "0xophash" "tx") } :=
  claim_C1 (fun _ => none)
    ⟨fun _ => Except.ok "0xophash",
     fun _ => Except.error "invalid codepoint at offset 2"⟩
    ⟨"0xaaaaaaaaaaaaaaaaaaaaaaaaaaaaaaaaaaaaaaaa",
     "0xbbbbbbbbbbbbbbbbbbbbbbbbbbbbbbbbbbbbbbbb", "1", Currency.CELO⟩
    ⟨"0xbbbbbbbbbbbbbbbbbbbbbbbbbbbbbbbbbbbbbbbb", 1000000000000000000, "0x"⟩
    "0xophash" "invalid codepoint at offset 2"
    (by decide) (by decide) (by decide) rfl rfl (by decide)

/-- Claim C8: the benign-defect signature set is broader than
"invalid codepoint": every message containing "missing continuation byte" or
"strings/5.7.0" is classified benign by `isEncodingError`, and
`sendPaymentWithKernel` likewise downgrades such a receipt-wait failure to
`success = true` with the operation identifier as the transaction
reference. -/
theorem claim_C8 :
    (∀ msg : String,
       containsSubstr msg "missing continuation byte" = true ∨
       containsSubstr msg "strings/5.7.0" = true →
       isEncodingError msg = true) ∧
    (∀ (tokens : Currency → Option String) (client : KernelAccountClient)
       (params : PaymentParams) (call : CallObj) (opHash msg : String),
       toInvalid params = false → amountInvalid params = false →
       encodesCall tokens params = some call →
       client.sendUserOperation [call] = Except.ok opHash →
       client.waitForUserOperationReceipt opHash = Except.error msg →
       containsSubstr msg "missing continuation byte" = true ∨
       containsSubstr msg "strings/5.7.0" = true →
       (sendPaymentWithKernel tokens client params).1 =
         { success := true, transactionHash := some opHash, error := none,
           explorerUrl := some (getCeloExplorerUrl opHash "tx") }) := by
  have ha : ∀ msg : String,
      containsSubstr msg "missing continuation byte" = true ∨
      containsSubstr msg "strings/5.7.0" = true →
      isEncodingError msg = true := by
    intro msg h
    unfold isEncodingError
    rcases h with h | h <;> rw [h] <;> simp
  refine ⟨ha, ?_⟩
  intro tokens client params call opHash msg hvt hva henc hs hw h
  have htry := try_after_submit client hvt hva henc
  rw [submitAndWait_benign hs hw (ha msg h)] at htry
  rw [wrapper_of_try_ok htry]

set_option maxRecDepth 8000 in
/-- Witness for C8 at a concrete message and a concrete token transfer. -/
theorem claim_C8_witness :
    isEncodingError "xx missing continuation byte yy" = true ∧
    (sendPaymentWithKernel (fun _ => some "0xcccccccccccccccccccccccccccccccccccccccc")
      ⟨fun _ => Except.ok "0xop8",
       fun _ => Except.error "strings/5.7.0 panic"⟩
      ⟨"0xaaaaaaaaaaaaaaaaaaaaaaaaaaaaaaaaaaaaaaaa",
       "0x1111111111111111111111111111111111111111", "2",
       Currency.cUSD⟩).1 =
      { success := true, transactionHash := some "0xop8", error := none,
        explorerUrl := some (getCeloExplorerUrl "0xop8" "tx") } :=
  ⟨claim_C8.1 "xx missing continuation byte yy" (Or.inl (by decide)),
   claim_C8.2 (fun _ => some "0xcccccccccccccccccccccccccccccccccccccccc")
     ⟨fun _ => Except.ok "0xop8", fun _ => Except.error "strings/5.7.0 panic"⟩
     ⟨"0xaaaaaaaaaaaaaaaaaaaaaaaaaaaaaaaaaaaaaaaa",
      "0x1111111111111111111111111111111111111111", "2", Currency.cUSD⟩
     ⟨"0xcccccccccccccccccccccccccccccccccccccccc", 0,
      "0xa9059cbb00000000000000000000000011111111111111111111111111111111111111110000000000000000000000000000000000000000000000001bc16d674ec80000"⟩
     "0xop8" "strings/5.7.0 panic"
     (by decide) (by decide) (by decide) rfl rfl (Or.inr (by decide))⟩

/-- Claim C7 counterexample: the receipt-wait error message
`"billing plan insufficient funds"` contains "billing plan" and is not
classified benign, so the claim requires the sponsorship-quota guidance
message; but the funding check (`fund`/`balance`/`insufficient`) runs first
in the catch block, so the code returns the funding-guidance message
instead. -/
theorem claim_C7_counterexample :
    (sendPaymentWithKernel (fun _ => none)
      ⟨fun _ => Except.ok "0xop",
       fun _ => Except.error "billing plan insufficient funds"⟩
      ⟨"0xaaaaaaaaaaaaaaaaaaaaaaaaaaaaaaaaaaaaaaaa",
       "0xbbbbbbbbbbbbbbbbbbbbbbbbbbbbbbbbbbbbbbbb", "1",
       Currency.CELO⟩).1 =
      { success := false,
        error := some ("billing plan insufficient funds" ++ fundingSuffix) } ∧
    ("billing plan insufficient funds" ++ fundingSuffix) ≠ billingMsg :=
  ⟨by decide, by decide⟩

/-- Claim C7 (amended): for receipt-wait failures not classified as the
benign encoding defect: a message containing "insufficient funds" yields
`success = false` with the funding-guidance message (the original message
plus `fundingSuffix`); a message containing "billing plan" **and none of the
funding substrings** (`fund`, `balance`, `insufficient` — the funding check
takes precedence) yields `success = false` with the sponsorship-quota
guidance message `billingMsg`; and the two messages are always distinct. -/
theorem claim_C7 :
    (∀ (tokens : Currency → Option String) (client : KernelAccountClient)
       (params : PaymentParams) (call : CallObj) (opHash msg : String),
       toInvalid params = false → amountInvalid params = false →
       encodesCall tokens params = some call →
       client.sendUserOperation [call] = Except.ok opHash →
       client.waitForUserOperationReceipt opHash = Except.error msg →
       isEncodingError msg = false →
       containsSubstr msg "insufficient funds" = true →
       (sendPaymentWithKernel tokens client params).1 =
         { success := false, error := some (msg ++ fundingSuffix) }) ∧
    (∀ (tokens : Currency → Option String) (client : KernelAccountClient)
       (params : PaymentParams) (call : CallObj) (opHash msg : String),
       toInvalid params = false → amountInvalid params = false →
       encodesCall tokens params = some call →
       client.sendUserOperation [call] = Except.ok opHash →
       client.waitForUserOperationReceipt opHash = Except.error msg →
       isEncodingError msg = false →
       containsSubstr msg "billing plan" = true →
       containsLower msg "fund" = false →
       containsLower msg "balance" = false →
       containsLower msg "insufficient" = false →
       (sendPaymentWithKernel tokens client params).1 =
         { success := false, error := some billingMsg }) ∧
    (∀ msg : String, msg ++ fundingSuffix ≠ billingMsg) := by
  refine ⟨?_, ?_, funding_ne_billing⟩
  · intro tokens client params call opHash msg hvt hva henc hs hw hben hf
    have hfund : containsLower msg "fund" = true :=
      containsLower_of_containsSubstr hf (by decide)
    have htry := try_after_submit client hvt hva henc
    rw [submitAndWait_hardfail hs hw hben] at htry
    rw [wrapper_of_try_error htry]
    show catchClassify msg = _
    unfold catchClassify
    simp only [hben, Bool.false_eq_true, if_false, hfund, Bool.true_or,
      if_true]
  · intro tokens client params call opHash msg hvt hva henc hs hw hben hb
      hnf hnb hni
    have hbil : containsLower msg "billing plan" = true :=
      containsLower_of_containsSubstr hb (by decide)
    have htry := try_after_submit client hvt hva henc
    rw [submitAndWait_hardfail hs hw hben] at htry
    rw [wrapper_of_try_error htry]
    show catchClassify msg = _
    unfold catchClassify
    simp only [hben, hnf, hnb, hni, hbil, Bool.false_eq_true, Bool.false_or,
      Bool.or_false, Bool.true_or, Bool.or_true, if_false, if_true]

/-- Witness for the amended C7 at concrete funding and billing failures. -/
theorem claim_C7_witness :
    (sendPaymentWithKernel (fun _ => none)
      ⟨fun _ => Except.ok "0xop",
       fun _ => Except.error "insufficient funds for gas"⟩
      ⟨"0xaaaaaaaaaaaaaaaaaaaaaaaaaaaaaaaaaaaaaaaa",
       "0xbbbbbbbbbbbbbbbbbbbbbbbbbbbbbbbbbbbbbbbb", "1",
       Currency.CELO⟩).1 =
      { success := false,
        error := some ("insufficient funds for gas" ++ fundingSuffix) } ∧
    (sendPaymentWithKernel (fun _ => none)
      ⟨fun _ => Except.ok "0xop",
       fun _ => Except.error "exceeded billing plan quota"⟩
      ⟨"0xaaaaaaaaaaaaaaaaaaaaaaaaaaaaaaaaaaaaaaaa",
       "0xbbbbbbbbbbbbbbbbbbbbbbbbbbbbbbbbbbbbbbbb", "1",
       Currency.CELO⟩).1 =
      { success := false, error := some billingMsg } :=
  ⟨claim_C7.1 (fun _ => none)
     ⟨fun _ => Except.ok "0xop",
      fun _ => Except.error "insufficient funds for gas"⟩
     ⟨"0xaaaaaaaaaaaaaaaaaaaaaaaaaaaaaaaaaaaaaaaa",
      "0xbbbbbbbbbbbbbbbbbbbbbbbbbbbbbbbbbbbbbbbb", "1", Currency.CELO⟩
     ⟨"0xbbbbbbbbbbbbbbbbbbbbbbbbbbbbbbbbbbbbbbbb", 1000000000000000000, "0x"⟩
     "0xop" "insufficient funds for gas"
     (by decide) (by decide) (by decide) rfl rfl (by decide) (by decide),
   claim_C7.2.1 (fun _ => none)
     ⟨fun _ => Except.ok "0xop",
      fun _ => Except.error "exceeded billing plan quota"⟩
     ⟨"0xaaaaaaaaaaaaaaaaaaaaaaaaaaaaaaaaaaaaaaaa",
      "0xbbbbbbbbbbbbbbbbbbbbbbbbbbbbbbbbbbbbbbbb", "1", Currency.CELO⟩
     ⟨"0xbbbbbbbbbbbbbbbbbbbbbbbbbbbbbbbbbbbbbbbb", 1000000000000000000, "0x"⟩
     "0xop" "exceeded billing plan quota"
     (by decide) (by decide) (by decide) rfl rfl (by decide) (by decide)
     (by decide) (by decide) (by decide)⟩

/-- Claim C9: whenever `waitForUserOperationReceipt` resolves successfully
but the receipt carries no transaction hash, `sendPaymentWithKernel` returns
`success = false` with a non-empty error message; and on every input the
function never returns `success = true` without a `transactionHash` value. -/
theorem claim_C9 :
    (∀ (tokens : Currency → Option String) (client : KernelAccountClient)
       (params : PaymentParams) (opH : String) (rcpt : Option UserOpReceipt),
       (∀ cs, client.sendUserOperation cs = Except.ok opH) →
       (∀ x, client.waitForUserOperationReceipt x = Except.ok rcpt) →
       jsReceiptHash rcpt = none →
       (sendPaymentWithKernel tokens client params).1.success = false ∧
       ∃ m, (sendPaymentWithKernel tokens client params).1.error = some m ∧
         m ≠ "") ∧
    (∀ (tokens : Currency → Option String) (client : KernelAccountClient)
       (params : PaymentParams),
       (sendPaymentWithKernel tokens client params).1.success = true →
       ((sendPaymentWithKernel tokens client params).1.transactionHash).isSome
         = true) := by
  constructor
  · intro tokens client params opH rcpt hs hw hn
    rcases h : sendPaymentWithKernelTry tokens client params with ⟨res, tr⟩
    cases res with
    | ok r =>
      rw [wrapper_of_try_ok h]
      exact try_ok_classified hs hw hn h
    | error e =>
      rw [wrapper_of_try_error h]
      exact catchClassify_shape (try_error_classified hs hw hn h)
  · intro tokens client params hsucc
    rcases h : sendPaymentWithKernelTry tokens client params with ⟨res, tr⟩
    cases res with
    | ok r =>
      rw [wrapper_of_try_ok h] at hsucc ⊢
      rcases try_ok_shape h with ⟨_, hh⟩ | ⟨hf, _⟩
      · exact hh
      · rw [hf] at hsucc; cases hsucc
    | error e =>
      rw [wrapper_of_try_error h] at hsucc
      rw [(catchClassify_failure_shape e).1] at hsucc
      cases hsucc

/-- Witness for C9 at a concrete hash-less receipt. -/
theorem claim_C9_witness :
    (sendPaymentWithKernel (fun _ => none)
      ⟨fun _ => Except.ok "0xop9", fun _ => Except.ok (some ⟨some ⟨none⟩⟩)⟩
      ⟨"0xaaaaaaaaaaaaaaaaaaaaaaaaaaaaaaaaaaaaaaaa",
       "0xbbbbbbbbbbbbbbbbbbbbbbbbbbbbbbbbbbbbbbbb", "1",
       Currency.CELO⟩).1.success = false ∧
    ∃ m, (sendPaymentWithKernel (fun _ => none)
      ⟨fun _ => Except.ok "0xop9", fun _ => Except.ok (some ⟨some ⟨none⟩⟩)⟩
      ⟨"0xaaaaaaaaaaaaaaaaaaaaaaaaaaaaaaaaaaaaaaaa",
       "0xbbbbbbbbbbbbbbbbbbbbbbbbbbbbbbbbbbbbbbbb", "1",
       Currency.CELO⟩).1.error = some m ∧ m ≠ "" :=
  claim_C9.1 (fun _ => none)
    ⟨fun _ => Except.ok "0xop9", fun _ => Except.ok (some ⟨some ⟨none⟩⟩)⟩
    ⟨"0xaaaaaaaaaaaaaaaaaaaaaaaaaaaaaaaaaaaaaaaa",
     "0xbbbbbbbbbbbbbbbbbbbbbbbbbbbbbbbbbbbbbbbb", "1", Currency.CELO⟩
    "0xop9" (some ⟨some ⟨none⟩⟩) (fun _ => rfl) (fun _ => rfl) rfl

/-- Claim C10: on every wallet list (whose addresses are non-empty, as the
`0x${string}` TypeScript type guarantees): the first `external` wallet wins —
`getEOAAddress` returns its address and `getEOAWallet` returns it, even when
a `waap` wallet is present; a `waap` wallet is used only when no external
wallet exists; and `null` is returned only when the list contains neither. -/
theorem claim_C10 (wallets : List WaaPWallet)
    (hne : ∀ w ∈ wallets, w.address ≠ "") :
    (∀ w, wallets.find?
        (fun w => w.walletClientType = WalletClientType.external) = some w →
      getEOAAddress wallets = some w.address ∧
      getEOAWallet wallets = some w) ∧
    (wallets.find?
        (fun w => w.walletClientType = WalletClientType.external) = none →
     ∀ w, wallets.find?
        (fun w => w.walletClientType = WalletClientType.waap) = some w →
      getEOAAddress wallets = some w.address ∧
      getEOAWallet wallets = some w) ∧
    (getEOAAddress wallets = none →
      wallets.find?
        (fun w => w.walletClientType = WalletClientType.external) = none ∧
      wallets.find?
        (fun w => w.walletClientType = WalletClientType.waap) = none) ∧
    (getEOAWallet wallets = none →
      wallets.find?
        (fun w => w.walletClientType = WalletClientType.external) = none ∧
      wallets.find?
        (fun w => w.walletClientType = WalletClientType.waap) = none) := by
  refine ⟨?_, ?_, ?_, ?_⟩
  · intro w hw
    have hwne := hne w (List.mem_of_find?_eq_some hw)
    constructor
    · simp [getEOAAddress, hw, hwne]
    · simp [getEOAWallet, hw]
  · intro hext w hww
    have hwne := hne w (List.mem_of_find?_eq_some hww)
    constructor
    · simp [getEOAAddress, hext, hww, hwne]
    · simp [getEOAWallet, hext, hww]
  · intro h0
    cases hext : wallets.find?
        (fun w => w.walletClientType = WalletClientType.external) with
    | some w =>
      simp [getEOAAddress, hext,
        hne w (List.mem_of_find?_eq_some hext)] at h0
    | none =>
      refine ⟨rfl, ?_⟩
      cases hwaap : wallets.find?
          (fun w => w.walletClientType = WalletClientType.waap) with
      | some w =>
        simp [getEOAAddress, hext, hwaap,
          hne w (List.mem_of_find?_eq_some hwaap)] at h0
      | none => rfl
  · intro h0
    cases hext : wallets.find?
        (fun w => w.walletClientType = WalletClientType.external) with
    | some w => simp [getEOAWallet, hext] at h0
    | none =>
      refine ⟨rfl, ?_⟩
      simp only [getEOAWallet, hext] at h0
      exact h0

/-- Witness for C10: a list holding a `waap` wallet first and an `external`
wallet second — the external wallet still wins. -/
theorem claim_C10_witness :
    getEOAAddress
        [⟨"0xwaapaddr", WalletClientType.waap, "42220", true⟩,
         ⟨"0xextaddr", WalletClientType.external, "42220", true⟩] =
      some "0xextaddr" ∧
    getEOAWallet
        [⟨"0xwaapaddr", WalletClientType.waap, "42220", true⟩,
         ⟨"0xextaddr", WalletClientType.external, "42220", true⟩] =
      some ⟨"0xextaddr", WalletClientType.external, "42220", true⟩ :=
  (claim_C10
    [⟨"0xwaapaddr", WalletClientType.waap, "42220", true⟩,
     ⟨"0xextaddr", WalletClientType.external, "42220", true⟩]
    (by decide)).1
    ⟨"0xextaddr", WalletClientType.external, "42220", true⟩ (by decide)

end MotusHub
